import Mathlib

/-!
Shallow embedding of the F1 tyre-degradation pipeline
(src/get_curves.py and src/initial_attempt.py).

Machine floats of the scripts are modelled as exact rationals; lap and
stint indices as integers. The external HTTP fetch, plotting, and the
scipy optimizer internals are outside the embedding: the optimizer is
modelled abstractly by its observable outcome (converged parameters, or
the RuntimeError scipy raises when the iteration budget maxfev is
exhausted).
-/

attribute [local semireducible] Rat.add Rat.sub Rat.mul Rat.inv

/-- A lap record as the scripts read it from JSON: driver number, lap
number, the three sector durations (`none` models a missing or
non-numeric value, which `float(...)` would fail on), and the pit-out
flag (`lap.get("is_pit_out_lap")`). -/
structure LapRec where
  driver : ℕ
  lap_number : ℤ
  s1 : Option ℚ
  s2 : Option ℚ
  s3 : Option ℚ
  is_pit_out : Bool
deriving DecidableEq

/-- A stint record: driver, compound name, lap_start, lap_end,
tyre_age_at_start, stint_number. -/
structure StintRec where
  driver : ℕ
  compound : String
  lap_start : ℤ
  lap_end : ℤ
  tyre_age_at_start : ℤ
  stint_number : ℕ
deriving DecidableEq

/-- The flat per-lap row both scripts append to `rows`. -/
structure Row where
  lap_time : ℚ
  tyre_age : ℤ
  driver : ℕ
  session : ℕ
  lap_number : ℤ
  stint_start : ℤ
  stint_end : ℤ
  stint_length : ℤ
  tyre_age_at_start : ℤ
  stint_number : ℕ
deriving DecidableEq

/-- A row after the fuel-correction stage: the original row plus the
`fuel_corrected_time_zero` column. -/
structure CRow where
  row : Row
  fuel_corrected_time_zero : ℚ
deriving DecidableEq

/-- `laps_by_driver[dnum][ln]`: the laps dictionary is keyed by
(driver, lap number); a later record with the same key overwrites an
earlier one, hence the last matching record. -/
def lookupLap (laps : List LapRec) (d : ℕ) (ln : ℤ) : Option LapRec :=
  (laps.filter (fun lap => decide (lap.driver = d ∧ lap.lap_number = ln))).getLast?

/-- Python `range(start, end)` over lap numbers. -/
def lapRange (s e : ℤ) : List ℤ :=
  (List.range (e - s).toNat).map (fun i => s + i)

/-- The lap-time computed from the three sector durations; `none` when
any sector is missing or non-numeric (the scripts `continue` on the
exception from `float`). -/
def sectorsSum (lap : LapRec) : Option ℚ :=
  match lap.s1, lap.s2, lap.s3 with
  | some d1, some d2, some d3 => some (d1 + d2 + d3)
  | _, _, _ => none

/-- The body of the inner lap loop of both scripts: look up the lap for
this driver and lap number; skip it when absent or flagged pit-out or
when a sector duration is unusable; otherwise emit the row. -/
def rowOfLap (sess : ℕ) (st : StintRec) (laps : List LapRec) (ln : ℤ) : Option Row :=
  (lookupLap laps st.driver ln).bind (fun lap =>
    if lap.is_pit_out then none
    else (sectorsSum lap).map (fun t =>
      { lap_time := t
        tyre_age := st.tyre_age_at_start + (ln - st.lap_start)
        driver := st.driver
        session := sess
        lap_number := ln
        stint_start := st.lap_start
        stint_end := st.lap_end
        stint_length := max 0 (st.lap_end - st.lap_start)
        tyre_age_at_start := st.tyre_age_at_start
        stint_number := st.stint_number }))

/-- Python `str.upper` on the compound names (ASCII): uppercase each
character. -/
def upper (s : String) : String := String.mk (s.data.map Char.toUpper)

/-- The rows one stint contributes: nothing unless the stint's compound
is truthy and matches the target case-insensitively
(`if not tyre or tyre.upper() != COMPOUND.upper(): continue`),
otherwise one optional row per lap number in `range(start, end)`. -/
def stintRows (compound : String) (sess : ℕ) (laps : List LapRec) (st : StintRec) : List Row :=
  if st.compound ≠ "" ∧ upper st.compound = upper compound then
    (lapRange st.lap_start st.lap_end).filterMap (rowOfLap sess st laps)
  else []

/-- Row builder of src/get_curves.py: stints with
`(lap_end - lap_start) > 5` are kept, the rest are dropped before the
stint loop. -/
def buildRows (compound : String) (sess : ℕ) (stints : List StintRec) (laps : List LapRec) :
    List Row :=
  (stints.filter (fun s => decide (5 < s.lap_end - s.lap_start))).flatMap
    (stintRows compound sess laps)

/-- Row builder of src/initial_attempt.py: the same stint loop but with
no stint-length filter. -/
def buildRowsIA (compound : String) (sess : ℕ) (stints : List StintRec) (laps : List LapRec) :
    List Row :=
  stints.flatMap (stintRows compound sess laps)

/-- Insertion of a rational into a sorted list (ascending), used to
model numpy sorting for the median. -/
def insertQ (x : ℚ) : List ℚ → List ℚ
  | [] => [x]
  | y :: ys => if x ≤ y then x :: y :: ys else y :: insertQ x ys

/-- Ascending sort of a list of rationals. -/
def sortQ (l : List ℚ) : List ℚ := l.foldr insertQ []

/-- `np.median`: middle element of the sorted data for odd length, the
mean of the two middle elements for even length. -/
def medianRat (l : List ℚ) : ℚ :=
  if (sortQ l).length % 2 = 1 then (sortQ l).getD ((sortQ l).length / 2) 0
  else ((sortQ l).getD ((sortQ l).length / 2 - 1) 0 + (sortQ l).getD ((sortQ l).length / 2) 0) / 2

/-- The grouping key of the push-lap filter:
`(r["driver"], r["session"], r["stint_number"])`. -/
def rowKey (r : Row) : ℕ × ℕ × ℕ := (r.driver, r.session, r.stint_number)

/-- The rows of one (driver, session, stint) group. -/
def groupOf (rows : List Row) (k : ℕ × ℕ × ℕ) : List Row :=
  rows.filter (fun r => decide (rowKey r = k))

/-- The push-lap filter of src/get_curves.py (lines 108-124): group rows
by (driver, session, stint); inside each group drop the first lap of the
stint unconditionally, and keep a remaining row only when its lap_time
is strictly greater than the group median minus 1.5 seconds. -/
def medianFilter (rows : List Row) : List Row :=
  ((rows.map rowKey).dedup).flatMap (fun k =>
    (groupOf rows k).filter (fun r =>
      decide (r.lap_number ≠ r.stint_start ∧
        medianRat ((groupOf rows k).map Row.lap_time) - 3/2 < r.lap_time)))

/-- SECONDS_SAVED_PER_LAP_FUEL of src/get_curves.py (0.045 s). -/
def SECONDS_SAVED_PER_LAP_FUEL : ℚ := 9/200

/-- The fuel-correction stage (src/get_curves.py lines 126-143, same
arithmetic in src/initial_attempt.py lines 117-126): starting fuel in
lap-equivalents is stint_length + 2; the remaining fuel laps are clamped
at zero; the penalty is remaining laps times the per-lap constant `c`. -/
def fuelCorrect (c : ℚ) (r : Row) : CRow :=
  { row := r
    fuel_corrected_time_zero :=
      r.lap_time - ((max 0 ((r.stint_length + 2) - (r.lap_number - r.stint_start)) : ℤ) : ℚ) * c }

/-- THRESHOLD of the sequential anomaly filter (1.03). -/
def THRESHOLD : ℚ := 103/100

/-- Insertion step of the stable sort by tyre_age used before the
sequential filter (the script sorts with `np.argsort` on tyre_age). -/
def insertAge (x : CRow) : List CRow → List CRow
  | [] => [x]
  | y :: ys => if x.row.tyre_age ≤ y.row.tyre_age then x :: y :: ys else y :: insertAge x ys

/-- Sort the corrected rows by ascending tyre_age. -/
def sortByAge (l : List CRow) : List CRow := l.foldr insertAge []

/-- The walk of the sequential anomaly filter (src/get_curves.py lines
145-158): `last` is the running `last_mean`; a row is appended and the
reference updated exactly when `last` is unset or the row's
fuel-corrected time is at most THRESHOLD times the reference. -/
def seqWalk (last : Option ℚ) : List CRow → List CRow
  | [] => []
  | r :: rs =>
    match last with
    | none => r :: seqWalk (some r.fuel_corrected_time_zero) rs
    | some m =>
      if r.fuel_corrected_time_zero ≤ THRESHOLD * m then
        r :: seqWalk (some r.fuel_corrected_time_zero) rs
      else seqWalk (some m) rs

/-- The sequential anomaly filter: sort by tyre_age, then walk with no
reference yet. -/
def seqFilter (rows : List CRow) : List CRow := seqWalk none (sortByAge rows)

/-- Spec-worded recursion for the sequential filter, for comparison with
`seqWalk`: after an accepted row with fuel-corrected time
`lastAccepted`, a later row is accepted if and only if its
fuel-corrected time is less than or equal to 1.03 times `lastAccepted`
(the exact-equality boundary accepted), an accepted row replaces the
reference, and a rejected row leaves it unchanged. -/
def seqAcceptFrom (lastAccepted : ℚ) : List CRow → List CRow
  | [] => []
  | r :: rs =>
    if r.fuel_corrected_time_zero ≤ (103/100 : ℚ) * lastAccepted then
      r :: seqAcceptFrom r.fuel_corrected_time_zero rs
    else seqAcceptFrom lastAccepted rs

/-- Spec-worded sequential filter: the first row is accepted
unconditionally (the seed) and the walk continues from its value. -/
def seqAcceptSpec : List CRow → List CRow
  | [] => []
  | r :: rs => r :: seqAcceptFrom r.fuel_corrected_time_zero rs

/-- ANOMALY_THRESHOLD of src/initial_attempt.py (74.0 s, a fixed
constant). -/
def ANOMALY_THRESHOLD : ℚ := 74

/-- The anomaly filter of src/initial_attempt.py (lines 142-154): keep a
row exactly when its raw lap_time is at most ANOMALY_THRESHOLD (the
`np.isfinite` conjunct always holds in the exact-rational model). -/
def anomalyFilterIA (rows : List CRow) : List CRow :=
  rows.filter (fun r => decide (r.row.lap_time ≤ ANOMALY_THRESHOLD))

/-- `np.min` over a list: `none` models the ValueError numpy raises on
an empty array. -/
def listMinQ : List ℚ → Option ℚ
  | [] => none
  | x :: xs => some (xs.foldl min x)

/-- The anomaly filter as the spec words it, for comparison: ceiling at
1.15 times the minimum observed lap_time, dropping exactly the rows
above the ceiling. -/
def anomalyFilterClaim (rows : List CRow) : List CRow :=
  match listMinQ (rows.map (fun r => r.row.lap_time)) with
  | none => rows
  | some m => rows.filter (fun r => decide (r.row.lap_time ≤ (115/100 : ℚ) * m))

/-- Insertion step of the ascending sort of the distinct tyre ages. -/
def insertZ (x : ℤ) : List ℤ → List ℤ
  | [] => [x]
  | y :: ys => if x ≤ y then x :: y :: ys else y :: insertZ x ys

/-- Ascending sort of a list of integers. -/
def sortZ (l : List ℤ) : List ℤ := l.foldr insertZ []

/-- `unique_ages = np.array(sorted(set(ages_clean)))`. -/
def uniqueAges (rows : List CRow) : List ℤ :=
  sortZ ((rows.map (fun r => r.row.tyre_age)).dedup)

/-- Mean fuel-corrected time of the rows at one tyre age
(`fuel_zero_clean[ages_clean == a].mean()`). -/
def meanTimeAt (rows : List CRow) (a : ℤ) : ℚ :=
  (((rows.filter (fun r => decide (r.row.tyre_age = a))).map
      (fun r => r.fuel_corrected_time_zero)).sum) /
    (((rows.filter (fun r => decide (r.row.tyre_age = a))).length : ℚ))

/-- The per-age aggregation of src/get_curves.py (lines 160-164): one
(age, mean fuel-corrected time) point per distinct tyre age, ascending.
No sample counts are kept. -/
def aggregate (rows : List CRow) : List (ℤ × ℚ) :=
  (uniqueAges rows).map (fun a => (a, meanTimeAt rows a))

/-- The mask of src/get_curves.py line 167 (`mask = unique_ages >= 2`)
applied to the aggregate: the series handed to the curve fitter. -/
def fitInput (rows : List CRow) : List (ℤ × ℚ) :=
  (aggregate rows).filter (fun p => decide (2 ≤ p.1))

/-- The arguments of the `curve_fit` call at src/get_curves.py line 198:
x and y series, the optional per-point weight series `sigma` (scipy's
uncertainty argument; the source passes none, i.e. an unweighted fit),
the initial guess `p0 = (1, 0.05, np.min(y))` and `maxfev = 5000`. -/
structure CurveFitArgs where
  xdata : List ℤ
  ydata : List ℚ
  sigma : Option (List ℚ)
  p0 : ℚ × ℚ × ℚ
  maxfev : ℕ
deriving DecidableEq

/-- Build the `curve_fit` arguments exactly as src/get_curves.py does:
`none` models the uncaught ValueError `np.min` raises when the y series
is empty (the `p0` line runs before the try block). -/
def codeFitArgs (rows : List CRow) : Option CurveFitArgs :=
  match listMinQ ((fitInput rows).map Prod.snd) with
  | none => none
  | some m =>
      some { xdata := (fitInput rows).map Prod.fst
             ydata := (fitInput rows).map Prod.snd
             sigma := none
             p0 := (1, 1/20, m)
             maxfev := 5000 }

/-- The observable outcome of the external scipy optimizer: either it
converges to parameters (a, b, c), or it exhausts maxfev and raises
RuntimeError. -/
inductive FitOutcome where
  | converged : ℚ × ℚ × ℚ → FitOutcome
  | runtimeError : FitOutcome
deriving DecidableEq

/-- The try/except of src/get_curves.py lines 197-201: a converged fit
yields its parameters; the RuntimeError of a non-convergent fit is
caught and the parameters become NaN, modelled as `none`. -/
def tryCurveFit (o : FitOutcome) : Option (ℚ × ℚ × ℚ) :=
  match o with
  | FitOutcome.converged p => some p
  | FitOutcome.runtimeError => none

/-- The whole curve-fitting stage of src/get_curves.py on the surviving
rows of a compound: build the arguments (which raises an uncaught
ValueError when no aggregate point survives, since `np.min` of the
empty y series runs outside the try block), then run the guarded fit. -/
def getCurvesFitStage (rows : List CRow) (o : FitOutcome) :
    Except String (Option (ℚ × ℚ × ℚ)) :=
  match codeFitArgs rows with
  | none => Except.error "ValueError: zero-size array to reduction operation minimum"
  | some _ => Except.ok (tryCurveFit o)

/-- Spec-worded aggregation for comparison: per-age mean and sample
count. -/
def aggregateCounts (rows : List CRow) : List (ℤ × ℚ × ℕ) :=
  (uniqueAges rows).map (fun a =>
    (a, meanTimeAt rows a, (rows.filter (fun r => decide (r.row.tyre_age = a))).length))

/-- Sample counts of the aggregate points the fitter receives (ages at
least 2), following the spec's words. -/
def fitCounts (rows : List CRow) : List ℕ :=
  ((aggregateCounts rows).filter (fun p => decide (2 ≤ p.1))).map (fun p => p.2.2)

/-- The weights the spec prescribes for the fit: count / max(count)
over the fitted points. -/
def specWeights (rows : List CRow) : List ℚ :=
  (fitCounts rows).map (fun c => (c : ℚ) / (((fitCounts rows).foldl max 0 : ℕ) : ℚ))

/-- A concrete row of one fixed (driver, session, stint) group with
stint_start 1, used in concrete instances: lap_time `t`, lap number
`ln`. -/
def exRow (t : ℚ) (ln : ℤ) : Row :=
  { lap_time := t, tyre_age := ln - 1, driver := 1, session := 1, lap_number := ln
    stint_start := 1, stint_end := 9, stint_length := 8, tyre_age_at_start := 0
    stint_number := 1 }

/-- Concrete group for the push-lap boundary: median lap_time is 11.5,
so the row with lap_time 10 sits exactly at median minus 1.5. -/
def rowsC2 : List Row :=
  [exRow 10 2, exRow (23/2) 3, exRow (23/2) 4, exRow (23/2) 5]

/-- Concrete group for the first-lap drop: the lap-2 row survives the
filter, the lap-1 row is the stint's first lap. -/
def rows9 : List Row := [exRow 50 2, exRow 50 1]

/-- Concrete row for the fuel-correction instance: stint_length 20 and
lap_number minus stint_start equal to 5. -/
def rC3 : Row :=
  { lap_time := 90, tyre_age := 5, driver := 1, session := 1, lap_number := 6
    stint_start := 1, stint_end := 22, stint_length := 20, tyre_age_at_start := 0
    stint_number := 1 }

/-- A concrete corrected row with raw lap_time `t` and tyre age `a`
(the corrected time set equal to the raw time). -/
def exC (t : ℚ) (a : ℤ) : CRow :=
  { row := { lap_time := t, tyre_age := a, driver := 1, session := 1, lap_number := 3
             stint_start := 1, stint_end := 9, stint_length := 8, tyre_age_at_start := 0
             stint_number := 1 }
    fuel_corrected_time_zero := t }

/-- Concrete rows for the anomaly filter: minimum lap_time 70, so the
spec's ceiling would be 80.5, yet the fixed constant drops the
78-second row. -/
def cex5 : List CRow := [exC 70 2, exC 78 3]

/-- Concrete corrected rows with tyre ages [2, 2, 3]: per-age counts 2
and 1, per-age means 91 and 95. -/
def ex8 : List CRow := [exC 90 2, exC 92 2, exC 95 3]

/-- The curve-fit arguments src/get_curves.py builds on `ex8`. -/
def args8 : CurveFitArgs :=
  { xdata := [2, 3], ydata := [91, 95], sigma := none, p0 := (1, 1/20, 91), maxfev := 5000 }

/-- Concrete stint of length 3 (below the warm-up cutoff). -/
def cexStint : StintRec :=
  { driver := 1, compound := "SOFT", lap_start := 1, lap_end := 4
    tyre_age_at_start := 0, stint_number := 1 }

/-- Concrete valid lap for the driver of `cexStint`. -/
def cexLap : LapRec :=
  { driver := 1, lap_number := 1, s1 := some 30, s2 := some 30, s3 := some 30
    is_pit_out := false }

/-- The row src/initial_attempt.py emits from `cexStint` and `cexLap`. -/
def cexRow : Row :=
  { lap_time := 90, tyre_age := 0, driver := 1, session := 1, lap_number := 1
    stint_start := 1, stint_end := 4, stint_length := 3, tyre_age_at_start := 0
    stint_number := 1 }

/-- Concrete stint of length 7 (above the cutoff) for the builder
instance. -/
def wStint : StintRec :=
  { driver := 1, compound := "SOFT", lap_start := 1, lap_end := 8
    tyre_age_at_start := 0, stint_number := 1 }

/-- Concrete lap list for `wStint`: one valid lap at lap number 3. -/
def wLaps : List LapRec :=
  [{ driver := 1, lap_number := 3, s1 := some 30, s2 := some 30, s3 := some 30
     is_pit_out := false }]

/-- The row src/get_curves.py emits from `wStint` and `wLaps`. -/
def wRow : Row :=
  { lap_time := 90, tyre_age := 2, driver := 1, session := 1, lap_number := 3
    stint_start := 1, stint_end := 8, stint_length := 7, tyre_age_at_start := 0
    stint_number := 1 }

/-- Membership in the push-lap filter output: a row survives exactly
when it is an input row, is not the first lap of its stint, and its
lap_time is strictly greater than its group's median minus 1.5. -/
theorem mem_medianFilter {rows : List Row} {r : Row} :
    r ∈ medianFilter rows ↔
      r ∈ rows ∧ r.lap_number ≠ r.stint_start ∧
        medianRat ((groupOf rows (rowKey r)).map Row.lap_time) - 3/2 < r.lap_time := by
  unfold medianFilter
  constructor
  · intro h
    obtain ⟨k, hk, hr⟩ := List.mem_flatMap.mp h
    obtain ⟨hrg, hpred⟩ := List.mem_filter.mp hr
    obtain ⟨hrin, hkey⟩ := List.mem_filter.mp hrg
    have hkey2 : rowKey r = k := of_decide_eq_true hkey
    subst hkey2
    rw [decide_eq_true_eq] at hpred
    exact ⟨hrin, hpred.1, hpred.2⟩
  · rintro ⟨hrin, hne, hlt⟩
    apply List.mem_flatMap.mpr
    refine ⟨rowKey r, List.mem_dedup.mpr (List.mem_map.mpr ⟨r, hrin, rfl⟩), ?_⟩
    apply List.mem_filter.mpr
    refine ⟨List.mem_filter.mpr ⟨hrin, by simp [groupOf]⟩, ?_⟩
    rw [decide_eq_true_eq]
    exact ⟨hne, hlt⟩

/-- C2: the claim as stated is false on the code. In the group
`rowsC2` the median lap_time is 11.5, the lap-2 row's lap_time 10 is
exactly the median minus 1.5, the row is not the first lap of its
stint, and yet it does not survive the push-lap filter. -/
theorem C2_boundary_row_dropped :
    (exRow 10 2).lap_time
        = medianRat ((groupOf rowsC2 (rowKey (exRow 10 2))).map Row.lap_time) - 3/2 ∧
      exRow 10 2 ∈ rowsC2 ∧ (exRow 10 2).lap_number ≠ (exRow 10 2).stint_start ∧
      exRow 10 2 ∉ medianFilter rowsC2 := by
  decide

/-- C2 (amended): in the median-relative push-lap filter the boundary is
strict: a row whose lap_time is exactly the group median minus 1.5 is
dropped; a row is retained only if its lap_time is strictly greater than
the median minus 1.5. -/
theorem C2_median_boundary_strict (rows : List Row) (r : Row)
    (h : r.lap_time = medianRat ((groupOf rows (rowKey r)).map Row.lap_time) - 3/2) :
    r ∉ medianFilter rows := by
  intro hmem
  have hlt := (mem_medianFilter.mp hmem).2.2
  rw [← h] at hlt
  exact lt_irrefl _ hlt

/-- Witness for C2 at the concrete group `rowsC2`. -/
theorem C2_median_boundary_strict_witness : exRow 10 2 ∉ medianFilter rowsC2 :=
  C2_median_boundary_strict rowsC2 (exRow 10 2) (by decide)

/-- C9: the first lap of every stint is unconditionally dropped by the
median-relative filter stage: no surviving row has its lap_number equal
to its stint_start. -/
theorem C9_first_lap_dropped (rows : List Row) (r : Row)
    (h : r ∈ medianFilter rows) : r.lap_number ≠ r.stint_start :=
  (mem_medianFilter.mp h).2.1

/-- Witness for C9: a concrete surviving row of `rows9`. -/
theorem C9_first_lap_dropped_witness : (exRow 50 2).lap_number ≠ (exRow 50 2).stint_start :=
  C9_first_lap_dropped rows9 (exRow 50 2) (by decide)

/-- C3: the fuel correction computes remaining_fuel_laps as
max(0, (stint_length + 2) - (lap_number - stint_start)) and subtracts
remaining_fuel_laps times the per-lap constant from the lap time; with
stint_length 20, lap_number - stint_start = 5 and the 0.045 s constant
the penalty is exactly 0.765 s. -/
theorem C3_fuel_correction_formula (c : ℚ) (r : Row) :
    (fuelCorrect c r).fuel_corrected_time_zero
        = r.lap_time - ((max 0 ((r.stint_length + 2) - (r.lap_number - r.stint_start)) : ℤ) : ℚ) * c ∧
      (r.stint_length = 20 → r.lap_number - r.stint_start = 5 → c = 9/200 →
        (fuelCorrect c r).fuel_corrected_time_zero = r.lap_time - 153/200) := by
  refine ⟨rfl, ?_⟩
  intro h20 h5 hc
  unfold fuelCorrect
  rw [h20, h5, hc]
  norm_num

/-- Witness for C3 at the concrete row `rC3` and the script's fuel
constant: the corrected time is the raw time minus 0.765 s. -/
theorem C3_fuel_correction_formula_witness :
    (fuelCorrect SECONDS_SAVED_PER_LAP_FUEL rC3).fuel_corrected_time_zero
      = rC3.lap_time - 153/200 :=
  (C3_fuel_correction_formula SECONDS_SAVED_PER_LAP_FUEL rC3).2 (by decide) (by decide) (by decide)

/-- Elements of an insertion are the inserted row or old elements. -/
theorem mem_insertAge {a x : CRow} {l : List CRow} :
    a ∈ insertAge x l ↔ a = x ∨ a ∈ l := by
  induction l with
  | nil => simp [insertAge]
  | cons y ys ih =>
    simp only [insertAge]
    split
    · simp [List.mem_cons]
    · simp only [List.mem_cons, ih]
      tauto

/-- Inserting into a list sorted by ascending tyre_age keeps it
sorted. -/
theorem pairwise_insertAge {x : CRow} {l : List CRow}
    (h : l.Pairwise (fun a b => a.row.tyre_age ≤ b.row.tyre_age)) :
    (insertAge x l).Pairwise (fun a b => a.row.tyre_age ≤ b.row.tyre_age) := by
  induction l with
  | nil => simp [insertAge]
  | cons y ys ih =>
    rw [List.pairwise_cons] at h
    obtain ⟨hy, hys⟩ := h
    simp only [insertAge]
    split
    · rename_i hle
      refine List.Pairwise.cons ?_ (List.Pairwise.cons hy hys)
      intro z hz
      rcases List.mem_cons.mp hz with rfl | hz2
      · exact hle
      · exact le_trans hle (hy z hz2)
    · rename_i hle
      refine List.Pairwise.cons ?_ (ih hys)
      intro z hz
      rcases mem_insertAge.mp hz with rfl | hz2
      · exact le_of_not_le hle
      · exact hy z hz2

/-- The sort step of the sequential filter orders rows by ascending
tyre_age. -/
theorem pairwise_sortByAge (l : List CRow) :
    (sortByAge l).Pairwise (fun a b => a.row.tyre_age ≤ b.row.tyre_age) := by
  induction l with
  | nil => simp [sortByAge]
  | cons x xs ih => exact pairwise_insertAge ih

/-- With a reference already set, the walk of the code and the
spec-worded recursion agree. -/
theorem seqWalk_some_eq (l : List CRow) : ∀ m : ℚ, seqWalk (some m) l = seqAcceptFrom m l := by
  induction l with
  | nil => intro m; rfl
  | cons r rs ih =>
    intro m
    simp only [seqWalk, seqAcceptFrom, THRESHOLD]
    split <;> simp [ih]

/-- C1: the sequential consistency filter walks the rows in ascending
tyre_age order and equals the spec-worded greedy walk: the first row is
accepted unconditionally as the seed, a later row is accepted if and
only if its fuel-corrected time is at most 1.03 times the last accepted
value (exact equality accepted), an accepted row replaces the running
reference and a rejected row leaves it unchanged. -/
theorem C1_sequential_filter_walk (rows : List CRow) :
    seqFilter rows = seqAcceptSpec (sortByAge rows) ∧
      (sortByAge rows).Pairwise (fun a b => a.row.tyre_age ≤ b.row.tyre_age) := by
  refine ⟨?_, pairwise_sortByAge rows⟩
  unfold seqFilter
  cases h : sortByAge rows with
  | nil => rfl
  | cons r rs =>
    simp only [seqWalk, seqAcceptSpec]
    rw [seqWalk_some_eq]

/-- C5: the claim as stated is false on src/initial_attempt.py. On
`cex5` the minimum lap_time is 70, so the claimed ceiling would be
80.5 and would keep the 78-second row, but the code's filter uses the
fixed 74-second constant and drops it. -/
theorem C5_relative_ceiling_false :
    anomalyFilterIA cex5 = [exC 70 2] ∧
      anomalyFilterClaim cex5 = [exC 70 2, exC 78 3] ∧
      anomalyFilterIA cex5 ≠ anomalyFilterClaim cex5 := by
  decide

/-- C5 (amended): the anomaly filter of src/initial_attempt.py keeps
exactly the rows whose lap_time is at most the fixed constant
ANOMALY_THRESHOLD = 74.0; the ceiling does not depend on the observed
minimum. -/
theorem C5_fixed_ceiling (rows : List CRow) (r : CRow) :
    r ∈ anomalyFilterIA rows ↔ r ∈ rows ∧ r.row.lap_time ≤ ANOMALY_THRESHOLD := by
  simp [anomalyFilterIA, List.mem_filter]

/-- C10: the series passed to the curve fitter contains exactly the
per-age aggregate means whose tyre_age is at least 2. -/
theorem C10_low_age_mask (rows : List CRow) (p : ℤ × ℚ) :
    p ∈ fitInput rows ↔ p ∈ aggregate rows ∧ 2 ≤ p.1 := by
  simp [fitInput, List.mem_filter]

/-- C8: the claim as stated is false on the code. On `ex8` the per-age
counts are 2 and 1, so the spec's weights would be [1, 1/2]; the
curve_fit call the code builds carries no weight series at all. -/
theorem C8_unweighted_call :
    codeFitArgs ex8 = some args8 ∧ args8.sigma = none ∧
      specWeights ex8 = [1, 1/2] ∧ args8.sigma ≠ some (specWeights ex8) := by
  decide

/-- C8 (amended): the fit is unweighted: whenever the curve-fit
arguments are built, no per-point weight series is passed (scipy's
sigma argument is absent, giving uniform weighting), and the
aggregation keeps no sample counts. -/
theorem C8_no_weights (rows : List CRow) (args : CurveFitArgs)
    (h : codeFitArgs rows = some args) : args.sigma = none := by
  unfold codeFitArgs at h
  split at h
  · exact Option.noConfusion h
  · injection h with h2
    rw [← h2]

/-- Witness for C8 at the concrete rows `ex8`. -/
theorem C8_no_weights_witness : args8.sigma = none :=
  C8_no_weights ex8 args8 (by decide)

/-- C6: once the fit arguments exist, the curve-fitting stage never
propagates an exception: it returns a result for every optimizer
outcome, and a non-convergent optimizer (RuntimeError within the maxfev
budget) yields the NaN parameters, modelled as `none`. -/
theorem C6_nonconvergence_not_fatal (rows : List CRow) (o : FitOutcome)
    (h : codeFitArgs rows ≠ none) :
    ∃ res, getCurvesFitStage rows o = Except.ok res ∧
      (o = FitOutcome.runtimeError → res = none) := by
  cases hm : codeFitArgs rows with
  | none => exact absurd hm h
  | some args =>
    refine ⟨tryCurveFit o, ?_, fun ho => by subst ho; rfl⟩
    unfold getCurvesFitStage
    rw [hm]

/-- Witness for C6 at the concrete rows `ex8` and a non-convergent
optimizer outcome. -/
theorem C6_nonconvergence_not_fatal_witness :
    ∃ res, getCurvesFitStage ex8 FitOutcome.runtimeError = Except.ok res ∧
      (FitOutcome.runtimeError = FitOutcome.runtimeError → res = none) :=
  C6_nonconvergence_not_fatal ex8 FitOutcome.runtimeError (by decide)

/-- C7: a compound with zero surviving rows does not short-circuit in
src/get_curves.py: the `p0` line takes `np.min` of the empty aggregate
series and the resulting ValueError is not caught by the
`except RuntimeError` handler, so the stage errors instead of skipping
the compound, whatever the optimizer would have done. -/
theorem C7_empty_compound_aborts (o : FitOutcome) :
    getCurvesFitStage [] o
      = Except.error "ValueError: zero-size array to reduction operation minimum" := rfl

/-- Facts recoverable from an emitted row: its lap record exists, is not
flagged pit-out, and the row copies the stint's identifiers and
bounds. -/
theorem rowOfLap_some {sess : ℕ} {st : StintRec} {laps : List LapRec} {ln : ℤ} {r : Row}
    (h : rowOfLap sess st laps ln = some r) :
    ∃ lap, lookupLap laps st.driver ln = some lap ∧ lap.is_pit_out = false ∧
      r.driver = st.driver ∧ r.lap_number = ln ∧
      r.stint_start = st.lap_start ∧ r.stint_end = st.lap_end := by
  unfold rowOfLap at h
  rw [Option.bind_eq_some] at h
  obtain ⟨lap, hlook, h2⟩ := h
  by_cases hp : lap.is_pit_out
  · rw [if_pos hp] at h2
    exact Option.noConfusion h2
  · rw [if_neg hp] at h2
    rw [Option.map_eq_some'] at h2
    obtain ⟨t, hsum, hr⟩ := h2
    subst hr
    exact ⟨lap, hlook, Bool.eq_false_iff.mpr hp, rfl, rfl, rfl, rfl⟩

/-- Every row a stint contributes comes from some lap number. -/
theorem mem_stintRows {compound : String} {sess : ℕ} {laps : List LapRec} {st : StintRec}
    {r : Row} (h : r ∈ stintRows compound sess laps st) :
    ∃ ln, rowOfLap sess st laps ln = some r := by
  unfold stintRows at h
  split at h
  · obtain ⟨ln, _, hr⟩ := List.mem_filterMap.mp h
    exact ⟨ln, hr⟩
  · exact absurd h (List.not_mem_nil r)

/-- Pit-out and stint-bound facts for any row a stint contributes. -/
theorem stintRows_props {compound : String} {sess : ℕ} {laps : List LapRec} {st : StintRec}
    {r : Row} (h : r ∈ stintRows compound sess laps st) :
    r.stint_start = st.lap_start ∧ r.stint_end = st.lap_end ∧
      ∃ lap, lookupLap laps r.driver r.lap_number = some lap ∧ lap.is_pit_out = false := by
  obtain ⟨ln, hr⟩ := mem_stintRows h
  obtain ⟨lap, hlook, hpit, hd, hln, hss, hse⟩ := rowOfLap_some hr
  refine ⟨hss, hse, lap, ?_, hpit⟩
  rw [hd, hln]
  exact hlook

/-- C4 (amended): the src/get_curves.py builder emits no row for a
pit-out lap and none from a stint whose lap range length is at most 5;
the src/initial_attempt.py builder also emits no row for a pit-out lap
but applies no stint-length exclusion. -/
theorem C4_pit_out_and_short_stints (compound : String) (sess : ℕ)
    (stints : List StintRec) (laps : List LapRec) (r : Row) :
    (r ∈ buildRows compound sess stints laps →
      5 < r.stint_end - r.stint_start ∧
        ∃ lap, lookupLap laps r.driver r.lap_number = some lap ∧ lap.is_pit_out = false) ∧
    (r ∈ buildRowsIA compound sess stints laps →
      ∃ lap, lookupLap laps r.driver r.lap_number = some lap ∧ lap.is_pit_out = false) := by
  constructor
  · intro h
    obtain ⟨st, hst, hr⟩ := List.mem_flatMap.mp h
    obtain ⟨hin, hlen⟩ := List.mem_filter.mp hst
    obtain ⟨hss, hse, hlap⟩ := stintRows_props hr
    rw [decide_eq_true_eq] at hlen
    rw [hss, hse]
    exact ⟨hlen, hlap⟩
  · intro h
    obtain ⟨st, hst, hr⟩ := List.mem_flatMap.mp h
    exact (stintRows_props hr).2.2

/-- Witness for C4 with a concrete length-7 stint and one valid lap. -/
theorem C4_pit_out_and_short_stints_witness :
    5 < wRow.stint_end - wRow.stint_start ∧
      ∃ lap, lookupLap wLaps wRow.driver wRow.lap_number = some lap ∧ lap.is_pit_out = false :=
  (C4_pit_out_and_short_stints "SOFT" 1 [wStint] wLaps wRow).1 (by decide)

/-- C4: the claim as stated is false for src/initial_attempt.py: the
length-3 stint `cexStint` produces the row `cexRow`, whose stint range
length is at most 5. -/
theorem C4_short_stint_emitted :
    buildRowsIA "SOFT" 1 [cexStint] [cexLap] = [cexRow] ∧
      cexRow.stint_end - cexRow.stint_start ≤ 5 := by
  decide
